import Mathlib

/-!
Verification of the ticket / staff-application workflow, authentication and
slug utilities of the community-portal repository.

The server logic lives in `src/server/routes.ts`: Express route handlers on
top of a `DatabaseStorage` class (same file).  We embed the relevant rows as
Lean structures, the database as explicit state, and each route handler /
storage method as a pure state-passing function, translated line by line
from the TypeScript.  `src/lib/constants.ts` provides `slugify`.

The shared Zod schemas (`@shared/schema`) are not part of the sources; where
a handler merely parses well-formed input through such a schema we model the
parse as accepting the given fields, noting `Modelled from the spec:` at the
definition.
-/

namespace AA

/-- Roles are plain strings in the code (`user`, `moderator`, `admin`,
`support`). -/
abbrev Role := String

/-- Session principal attached to a request (`req.user`): see the
`SessionData` declaration in `src/server/routes.ts` (`id`, `username`,
`role`, optional Discord fields we omit). -/
structure Principal where
  id : Nat
  username : String
  role : Role
deriving Repr, DecidableEq

/-- Row of the `users` table (fields used by the embedded handlers). -/
structure User where
  id : Nat
  username : String
  role : Role
  password : Option String := none
deriving Repr, DecidableEq

/-- Row of the `tickets` table (fields used by the embedded handlers).
Timestamps are a logical clock (`Nat`). -/
structure Ticket where
  id : Nat
  userId : Nat
  subject : String
  message : String
  status : String
  assignedTo : Option Nat := none
  closedAt : Option Nat := none
  closedBy : Option Nat := none
  createdAt : Nat := 0
  updatedAt : Nat := 0
deriving Repr, DecidableEq

/-- Row of the `ticket_replies` table.  `DatabaseStorage.createTicketReply`
persists only `ticket_id`, `user_id`, `message` (its raw SQL INSERT), so the
row carries exactly those plus id and creation time. -/
structure TicketReply where
  id : Nat
  ticketId : Nat
  userId : Nat
  message : String
  createdAt : Nat := 0
deriving Repr, DecidableEq

/-- Argument to `storage.createTicketReply` (`InsertTicketReply`): the
handlers additionally pass `isStaff` / `isSystemMessage` / `attachments`,
which the storage layer drops at persist time. -/
structure InsertTicketReply where
  ticketId : Nat
  userId : Nat
  message : String
  isStaff : Bool
  isSystemMessage : Bool := false
deriving Repr, DecidableEq

/-- Row of the `staff_applications` table.  `userId` is nullable: the first
(active) registration of `POST /api/applications` inserts `null` for
unauthenticated submitters. -/
structure StaffApplication where
  id : Nat
  userId : Option Nat
  position : String
  experience : String
  reason : String
  additionalInfo : String := ""
  status : String
  adminNotes : String := ""
  reviewedBy : Option Nat := none
  createdAt : Nat := 0
  updatedAt : Nat := 0
deriving Repr, DecidableEq

/-- Row of the `staff_members` roster table (fields used by the embedded
handlers). -/
structure StaffMember where
  id : Nat
  userId : Option Nat
  name : String
  position : String
  role : Role
  isActive : Bool := true
  displayOrder : Nat := 0
deriving Repr, DecidableEq

/-- The relational store: one list per table, per-table auto-increment
counters, and a logical clock standing for `new Date()` / `NOW()`. -/
structure DB where
  users : List User := []
  tickets : List Ticket := []
  ticketReplies : List TicketReply := []
  applications : List StaffApplication := []
  staffMembers : List StaffMember := []
  nextReplyId : Nat := 1
  nextAppId : Nat := 1
  nextMemberId : Nat := 1
  now : Nat := 0
deriving Repr, DecidableEq

/-- HTTP-level outcome of a handler: a success status code, or an error
status code with the JSON `message` field. -/
inductive Resp where
  | ok (code : Nat)
  | err (code : Nat) (message : String)
deriving Repr, DecidableEq

/-- Status code of a response. -/
def Resp.code : Resp → Nat
  | .ok c => c
  | .err c _ => c

/-! ## Storage layer (`DatabaseStorage` in `src/server/routes.ts`) -/

/-- `DatabaseStorage.getUser`: `select from users where id = ?`. -/
def getUser (id : Nat) (db : DB) : Option User :=
  db.users.find? (fun u => u.id == id)

/-- `DatabaseStorage.getUserByUsername`. -/
def getUserByUsername (username : String) (db : DB) : Option User :=
  db.users.find? (fun u => u.username == username)

/-- `DatabaseStorage.updateUser` restricted to the one call site in the
application-approval path, which sets `role: "moderator"`. -/
def updateUserRole (id : Nat) (role : Role) (db : DB) : DB :=
  { db with users := db.users.map (fun u => if u.id == id then { u with role := role } else u) }

/-- `DatabaseStorage.getTicket`: `select from tickets where id = ?`. -/
def getTicket (id : Nat) (db : DB) : Option Ticket :=
  db.tickets.find? (fun t => t.id == id)

/-- Partial ticket update as passed to `storage.updateTicket`: the call
sites in the handlers only ever set `status` and/or `assignedTo`. -/
structure TicketPatch where
  status : Option String := none
  assignedTo : Option Nat := none
deriving Repr, DecidableEq

/-- Field merge performed by drizzle's `update(tickets).set(...)` together
with the `updatedAt: new Date()` that `updateTicket` always adds. -/
def applyTicketPatch (p : TicketPatch) (now : Nat) (t : Ticket) : Ticket :=
  { t with
    status := match p.status with | some s => s | none => t.status
    assignedTo := match p.assignedTo with | some a => some a | none => t.assignedTo
    updatedAt := now }

/-- Row-wise effect of `update tickets set ... where id = ?`. -/
def updateTicketList (id : Nat) (p : TicketPatch) (now : Nat) (ts : List Ticket) : List Ticket :=
  ts.map (fun t => if t.id == id then applyTicketPatch p now t else t)

/-- `DatabaseStorage.updateTicket`: update the row, then re-select it. -/
def updateTicket (id : Nat) (p : TicketPatch) (db : DB) : Option Ticket × DB :=
  let db' := { db with tickets := updateTicketList id p db.now db.tickets }
  (getTicket id db', db')

/-- `DatabaseStorage.closeTicket`: raw SQL
`UPDATE tickets SET status = closed, closed_at = NOW(), closed_by = ?, updated_at = NOW() WHERE id = ?`,
then a re-select returning the row only when its status is now `closed`. -/
def closeTicket (id : Nat) (userId : Nat) (db : DB) : Option Ticket × DB :=
  let db' := { db with
    tickets := db.tickets.map (fun t =>
      if t.id == id then
        { t with status := "closed", closedAt := some db.now, closedBy := some userId,
                 updatedAt := db.now }
      else t) }
  match getTicket id db' with
  | some t => if t.status == "closed" then (some t, db') else (none, db')
  | none => (none, db')

/-- `DatabaseStorage.getTicketReplies`: all replies of a ticket. -/
def getTicketReplies (ticketId : Nat) (db : DB) : List TicketReply :=
  db.ticketReplies.filter (fun r => r.ticketId == ticketId)

/-- `DatabaseStorage.createTicketReply`: the raw SQL INSERT persists only
`ticket_id`, `user_id`, `message`; afterwards the method looks the author up
in `users`, and if that row's role is one of `admin`, `moderator`,
`support` and the ticket is currently `open`, it updates the ticket to
status `"in_progress"` with `assignedTo` the author. -/
def createTicketReply (r : InsertTicketReply) (db : DB) : TicketReply × DB :=
  let row : TicketReply :=
    { id := db.nextReplyId, ticketId := r.ticketId, userId := r.userId,
      message := r.message, createdAt := db.now }
  let db1 := { db with ticketReplies := db.ticketReplies ++ [row],
                       nextReplyId := db.nextReplyId + 1 }
  match getUser r.userId db1 with
  | some user =>
    if user.role == "admin" || user.role == "moderator" || user.role == "support" then
      match getTicket r.ticketId db1 with
      | some ticket =>
        if ticket.status == "open" then
          (row, (updateTicket r.ticketId { status := some "in_progress", assignedTo := some r.userId } db1).2)
        else (row, db1)
      | none => (row, db1)
    else (row, db1)
  | none => (row, db1)

/-- `DatabaseStorage.getStaffApplication`. -/
def getStaffApplication (id : Nat) (db : DB) : Option StaffApplication :=
  db.applications.find? (fun a => a.id == id)

/-- `DatabaseStorage.getStaffApplicationsByUserId`: `where user_id = ?`
with a number argument (a SQL `=` never matches a NULL column). -/
def getStaffApplicationsByUserId (userId : Nat) (db : DB) : List StaffApplication :=
  db.applications.filter (fun a => a.userId == some userId)

/-- Partial application update as passed to `storage.updateStaffApplication`
by the admin handlers. -/
structure AppPatch where
  status : Option String := none
  adminNotes : Option String := none
  reviewedBy : Option Nat := none
deriving Repr, DecidableEq

/-- Field merge of `update(staffApplications).set(...)` plus the
`updatedAt: new Date()` the storage method always adds.  A JS `undefined`
field (here `none`) leaves the column untouched. -/
def applyAppPatch (p : AppPatch) (now : Nat) (a : StaffApplication) : StaffApplication :=
  { a with
    status := match p.status with | some s => s | none => a.status
    adminNotes := match p.adminNotes with | some s => s | none => a.adminNotes
    reviewedBy := match p.reviewedBy with | some r => some r | none => a.reviewedBy
    updatedAt := now }

/-- `DatabaseStorage.updateStaffApplication`: update the row, re-select. -/
def updateStaffApplication (id : Nat) (p : AppPatch) (db : DB) : Option StaffApplication × DB :=
  let db' := { db with
    applications := db.applications.map (fun a => if a.id == id then applyAppPatch p db.now a else a) }
  (getStaffApplication id db', db')

/-- `DatabaseStorage.createStaffApplication` as invoked by the submission
handlers: insert the row and return it.  Modelled from the spec: the shared
insert schema and the table defaults are not under `src/`; per the spec's
example scenario a fresh submission carries `status = "pending"`. -/
def createStaffApplication (userId : Option Nat) (position experience reason additionalInfo : String)
    (db : DB) : StaffApplication × DB :=
  let row : StaffApplication :=
    { id := db.nextAppId, userId := userId, position := position, experience := experience,
      reason := reason, additionalInfo := additionalInfo, status := "pending",
      createdAt := db.now, updatedAt := db.now }
  (row, { db with applications := db.applications ++ [row], nextAppId := db.nextAppId + 1 })

/-- `DatabaseStorage.getStaffMemberByUserId`: `where user_id = ?` with a
number argument (SQL `=` with a NULL column matches nothing, so a `none`
`userId` finds no row). -/
def getStaffMemberByUserId (userId : Option Nat) (db : DB) : Option StaffMember :=
  match userId with
  | some uid => db.staffMembers.find? (fun m => m.userId == some uid)
  | none => none

/-- `DatabaseStorage.createStaffMember` as invoked from the approval path of
`PATCH /api/admin/applications/:id`. -/
def createStaffMember (userId : Nat) (name position : String) (role : Role) (db : DB) :
    StaffMember × DB :=
  let row : StaffMember :=
    { id := db.nextMemberId, userId := some userId, name := name, position := position,
      role := role, isActive := true, displayOrder := 99 }
  (row, { db with staffMembers := db.staffMembers ++ [row], nextMemberId := db.nextMemberId + 1 })

/-! ## Route handlers (`registerRoutes` in `src/server/routes.ts`)

Every handler below takes the authenticated session principal explicitly;
the `isAuthenticated` middleware (401 when no session) is thereby already
discharged.  The `isAdmin` middleware's role test is inlined where the
route uses it. -/

/-- Lookup used by the approval path, where `application.userId` may be the
SQL NULL (`eq(users.id, null)` matches no row). -/
def getUserOpt (userId : Option Nat) (db : DB) : Option User :=
  match userId with
  | some id => getUser id db
  | none => none

/-- `POST /api/user/tickets/:id/reply`: 404 when the ticket is missing,
403 unless the actor owns the ticket or has role `admin`; otherwise the
reply is stored via `storage.createTicketReply` and, when the reply is
flagged staff (`admin` or `moderator` session role) and the ticket was
fetched as `open`, the ticket is updated to `processing`.
The shared `insertTicketReplySchema` is not under `src/`; modelled from the
spec as accepting the well-formed reply fields the handler passes. -/
def userReplyToTicket (p : Principal) (ticketId : Nat) (message : String) (db : DB) :
    Resp × DB :=
  match getTicket ticketId db with
  | none => (.err 404 "Ticket não encontrado", db)
  | some ticket =>
    if ticket.userId != p.id && p.role != "admin" then
      (.err 403 "Acesso negado", db)
    else
      let isStaff := p.role == "admin" || p.role == "moderator"
      let replyData : InsertTicketReply :=
        { ticketId := ticketId, userId := p.id, message := message, isStaff := isStaff }
      let res1 := createTicketReply replyData db
      let db2 :=
        if isStaff && ticket.status == "open" then
          (updateTicket ticketId { status := some "processing" } res1.2).2
        else res1.2
      (.ok 201, db2)

/-- `POST /api/user/tickets/:id/close`: 404 when missing, 403 unless owner
or `admin` role, otherwise `storage.closeTicket` records
`closed` / `closedAt` / `closedBy` and the handler answers 200. -/
def userCloseTicket (p : Principal) (ticketId : Nat) (db : DB) : Resp × DB :=
  match getTicket ticketId db with
  | none => (.err 404 "Ticket não encontrado", db)
  | some ticket =>
    if ticket.userId != p.id && p.role != "admin" then
      (.err 403 "Acesso negado", db)
    else
      let res := closeTicket ticketId p.id db
      (.ok 200, res.2)

/-- `PATCH /api/admin/tickets/:id/assign` (isAdmin-gated): 404 when the
ticket is missing; otherwise unconditionally set
`assignedTo := adminId, status := processing` and append the system reply
"<name> assumiu este ticket e está trabalhando nele.". -/
def adminAssignTicket (p : Principal) (ticketId : Nat) (db : DB) : Resp × DB :=
  if p.role != "admin" then (.err 403 "Acesso negado", db)
  else
    match getTicket ticketId db with
    | none => (.err 404 "Ticket não encontrado", db)
    | some _ =>
      let res1 := updateTicket ticketId { assignedTo := some p.id, status := some "processing" } db
      let adminName :=
        match getUser p.id res1.2 with
        | some admin => admin.username
        | none => "Administrador"
      let res2 := createTicketReply
        { ticketId := ticketId, userId := p.id,
          message := adminName ++ " assumiu este ticket e está trabalhando nele.",
          isStaff := true, isSystemMessage := true } res1.2
      (.ok 200, res2.2)

/-- `POST /api/admin/tickets/:id/reply` (isAdmin-gated): 404 when missing;
when the ticket is not already assigned to this admin it is first updated to
`assignedTo := adminId, status := processing`; then the reply is stored. -/
def adminReplyToTicket (p : Principal) (ticketId : Nat) (message : String) (db : DB) :
    Resp × DB :=
  if p.role != "admin" then (.err 403 "Acesso negado", db)
  else
    match getTicket ticketId db with
    | none => (.err 404 "Ticket não encontrado", db)
    | some ticket =>
      let db1 :=
        if ticket.assignedTo != some p.id then
          (updateTicket ticketId { assignedTo := some p.id, status := some "processing" } db).2
        else db
      let res := createTicketReply
        { ticketId := ticketId, userId := p.id, message := message, isStaff := true } db1
      (.ok 201, res.2)

/-! ### Staff applications -/

/-- First registration of `POST /api/applications` (line 599): no pending
check, no authentication requirement; the body is parsed through
`insertStaffApplicationSchema` (not under `src/`; modelled from the spec as
accepting the submission fields) with `userId` the session id or null, the
row is inserted and answered with a plain 200 `res.json`. -/
def postApplicationsFirst (p : Option Principal)
    (position experience reason additionalInfo : String) (db : DB) : Resp × DB :=
  let userId := match p with | some pr => some pr.id | none => none
  let res := createStaffApplication userId position experience reason additionalInfo db
  (.ok 200, res.2)

/-- Second registration of `POST /api/applications` (line 1671,
isAuthenticated-gated): rejects with 400 when the submitter already has a
`pending` application, otherwise inserts and answers 201.  Express
dispatches a request to the first matching registration, and the first
handler always terminates the response, so this code is unreachable. -/
def postApplicationsSecond (p : Principal)
    (position experience reason additionalInfo : String) (db : DB) : Resp × DB :=
  let existing := getStaffApplicationsByUserId p.id db
  if existing.any (fun a => a.status == "pending") then
    (.err 400 "Você já possui uma candidatura pendente. Aguarde a análise da atual antes de enviar outra.", db)
  else
    let res := createStaffApplication (some p.id) position experience reason additionalInfo db
    (.ok 201, res.2)

/-- Behaviour of `POST /api/applications` as dispatched: the route is
registered twice and Express runs the first registration, which ends the
response, so the pending-duplicate check of the later registration never
executes. -/
def postApplications (p : Option Principal)
    (position experience reason additionalInfo : String) (db : DB) : Resp × DB :=
  postApplicationsFirst p position experience reason additionalInfo db

/-- `PATCH /api/admin/applications/:id/approve` (isAdmin-gated): a bare
`updateStaffApplication` to `status := "approved"` with reviewer and notes;
404 when the row is missing.  No roster row is created and no role is
changed on this endpoint. -/
def approveApplication (p : Principal) (id : Nat) (notes : Option String) (db : DB) :
    Resp × DB :=
  if p.role != "admin" then (.err 403 "Acesso negado", db)
  else
    let res := updateStaffApplication id
      { status := some "approved", adminNotes := notes, reviewedBy := some p.id } db
    match res.1 with
    | none => (.err 404 "Candidatura não encontrada", res.2)
    | some _ => (.ok 200, res.2)

/-- `PATCH /api/admin/applications/:id/reject` (isAdmin-gated): mirror of
the approve endpoint with `status := "rejected"`. -/
def rejectApplication (p : Principal) (id : Nat) (notes : Option String) (db : DB) :
    Resp × DB :=
  if p.role != "admin" then (.err 403 "Acesso negado", db)
  else
    let res := updateStaffApplication id
      { status := some "rejected", adminNotes := notes, reviewedBy := some p.id } db
    match res.1 with
    | none => (.err 404 "Candidatura não encontrada", res.2)
    | some _ => (.ok 200, res.2)

/-- Notes value stored by the generic admin PATCH:
`adminNotes || application.adminNotes` in JS keeps the old notes when the
body value is absent or the empty string (both falsy). -/
def patchNotesVal (adminNotes : Option String) (application : StaffApplication) : String :=
  match adminNotes with
  | some s => if s == "" then application.adminNotes else s
  | none => application.adminNotes

/-- `PATCH /api/admin/applications/:id` (isAdmin-gated): validates the
requested status against `["approved", "rejected", "pending"]` (400
otherwise), 404 when the row is missing, then updates the row without
consulting its current status.  When the new status is `approved` and no
roster row exists for the applicant, the handler inserts a
`staff_members` row (role `moderator`) and sets the user's role to
`moderator` — three sequential writes, no transaction.
A JS `adminNotes || application.adminNotes` keeps the old notes when the
body value is absent or the empty string. -/
def patchAdminApplication (p : Principal) (id : Nat) (status : String)
    (adminNotes : Option String) (db : DB) : Resp × DB :=
  if p.role != "admin" then (.err 403 "Acesso negado", db)
  else if !(["approved", "rejected", "pending"].contains status) then
    (.err 400 "Status inválido", db)
  else
    match getStaffApplication id db with
    | none => (.err 404 "Candidatura não encontrada", db)
    | some application =>
      let notesVal := patchNotesVal adminNotes application
      let res := updateStaffApplication id
        { status := some status, adminNotes := some notesVal, reviewedBy := some p.id } db
      let db2 :=
        if status == "approved" then
          match getStaffMemberByUserId application.userId res.2 with
          | some _ => res.2
          | none =>
            match getUserOpt application.userId res.2 with
            | some user =>
              let created := createStaffMember user.id user.username application.position
                "moderator" res.2
              updateUserRole user.id "moderator" created.2
            | none => res.2
        else res.2
      (.ok 200, db2)

/-! ### Authentication (`setupAuth` in `src/server/routes.ts`) -/

/-- Database reachability as seen by the login path: `up` carries the
store, `down` is the caught query/connection error branch. -/
inductive DbConn where
  | up (db : DB)
  | down
deriving Repr, DecidableEq

/-- The hard-coded synthetic admin principal built inline by both the
LocalStrategy verify callback and the `POST /api/auth/login` handler. -/
def syntheticAdmin : Principal :=
  { id := 1, username := "thuglife", role := "admin" }

/-- Outcome of an authentication attempt. -/
inductive LoginResult where
  | success (p : Principal)
  | failure (message : String)
deriving Repr, DecidableEq

/-- LocalStrategy verify callback: the `thuglife`/`thuglife` pair short-cuts
to the synthetic admin before any database access; otherwise the user row is
fetched and the bcrypt hash compared (`compare` is the external bcrypt
comparison, kept abstract); a caught database error re-checks the special
pair and otherwise fails.  The `lastLogin` touch on success is outside the
modelled columns. -/
def localStrategyVerify (compare : String → String → Bool)
    (username password : String) (conn : DbConn) : LoginResult :=
  if username == "thuglife" && password == "thuglife" then .success syntheticAdmin
  else
    match conn with
    | .up db =>
      match getUserByUsername username db with
      | none => .failure "Usuário não encontrado ou senha incorreta"
      | some u =>
        match u.password with
        | none => .failure "Usuário não encontrado ou senha incorreta"
        | some hash =>
          if compare password hash then .success { id := u.id, username := u.username, role := u.role }
          else .failure "Usuário não encontrado ou senha incorreta"
    | .down =>
      if username == "thuglife" && password == "thuglife" then .success syntheticAdmin
      else .failure "Erro de conexão com banco de dados"

/-- `POST /api/auth/login`: the handler itself also special-cases the
`thuglife`/`thuglife` pair ahead of `passport.authenticate("local")`. -/
def authLoginRoute (compare : String → String → Bool)
    (username password : String) (conn : DbConn) : LoginResult :=
  if username == "thuglife" && password == "thuglife" then .success syntheticAdmin
  else localStrategyVerify compare username password conn

/-! ## `slugify` (`src/lib/constants.ts`)

`slugify` lowercases, trims, deletes every character outside the class
`[\w\s-]`, replaces every maximal run of the class `[\s_-]` by a single
hyphen, and strips leading/trailing hyphens.  We model it on `List Char`:
each regex stage becomes a list transformation. -/

/-- ASCII uppercase letter. -/
def isAsciiUpper (c : Char) : Bool := 'A' ≤ c && c ≤ 'Z'

/-- ASCII lowercase letter. -/
def isAsciiLower (c : Char) : Bool := 'a' ≤ c && c ≤ 'z'

/-- ASCII digit. -/
def isAsciiDigit (c : Char) : Bool := '0' ≤ c && c ≤ '9'

/-- JavaScript `String.prototype.toLowerCase`, modelled character-wise on
the Basic Latin range (the inputs the slug route feeds it); characters the
mapping leaves alone and that are outside `\w`/`\s` are deleted by the next
stage either way. -/
def toLowerJS (c : Char) : Char :=
  if isAsciiUpper c then Char.ofNat (c.toNat + 32) else c

/-- The JavaScript regex class `\s` (whitespace). -/
def isJsSpace (c : Char) : Bool :=
  c == ' ' || ('\u0009' ≤ c && c ≤ '\u000d') ||
  c == '\u00a0' || c == '\u1680' || ('\u2000' ≤ c && c ≤ '\u200a') ||
  c == '\u2028' || c == '\u2029' || c == '\u202f' || c == '\u205f' ||
  c == '\u3000' || c == '\ufeff'

/-- The JavaScript regex class `\w`: `[A-Za-z0-9_]`. -/
def isWordChar (c : Char) : Bool :=
  isAsciiLower c || isAsciiUpper c || isAsciiDigit c || c == '_'

/-- The class `[\s_-]` of the second replace. -/
def isSep (c : Char) : Bool :=
  isJsSpace c || c == '_' || c == '-'

/-- JavaScript `String.prototype.trim`: whitespace stripped from both
ends. -/
def trimJS (l : List Char) : List Char :=
  ((l.dropWhile isJsSpace).reverse.dropWhile isJsSpace).reverse

/-- Effect of `.replace(/[\s_-]+/g, "-")`: each maximal run of separator
characters becomes one hyphen.  The flag records whether the previous
character was part of a run. -/
def collapseSeps : Bool → List Char → List Char
  | _, [] => []
  | prevSep, c :: rest =>
    if isSep c then
      if prevSep then collapseSeps true rest
      else '-' :: collapseSeps true rest
    else c :: collapseSeps false rest

/-- Effect of `.replace(/^-+|-+$/g, "")`: strip the leading and trailing
hyphen runs. -/
def stripEdgeHyphens (l : List Char) : List Char :=
  ((l.dropWhile (fun c => c == '-')).reverse.dropWhile (fun c => c == '-')).reverse

/-- `slugify` from `src/lib/constants.ts`: lowercase, trim, delete
characters outside `[\w\s-]`, collapse `[\s_-]+` runs to hyphens, strip
edge hyphens. -/
def slugify (s : String) : String :=
  String.mk (stripEdgeHyphens (collapseSeps false
    (List.filter (fun c => isWordChar c || isJsSpace c || c == '-')
      (trimJS (s.data.map toLowerJS)))))

/-! ## Concrete fixtures used by the claim theorems -/

/-- A ticket already closed, owned by user 42 (role `user`). -/
def dbClosedTicket : DB :=
  { users := [{ id := 42, username := "u42", role := "user" }],
    tickets := [{ id := 1, userId := 42, subject := "s", message := "m", status := "closed" }] }

/-- An open ticket owned by user 7, whose row carries role `support`. -/
def dbSupportOwner : DB :=
  { users := [{ id := 7, username := "sup", role := "support" }],
    tickets := [{ id := 1, userId := 7, subject := "s", message := "m", status := "open" }] }

/-- User 42 with one application already `pending`. -/
def dbPendingApp : DB :=
  { users := [{ id := 42, username := "u42", role := "user" }],
    applications := [{ id := 1, userId := some 42, position := "Moderator", experience := "e",
                       reason := "r", status := "pending" }],
    nextAppId := 2 }

/-- A `pending` application of user 42 (role `user`), empty roster. -/
def dbPendingApp7 : DB :=
  { users := [{ id := 42, username := "u42", role := "user" }],
    applications := [{ id := 7, userId := some 42, position := "Moderator", experience := "e",
                       reason := "r", status := "pending" }] }

/-- An application already `approved`. -/
def dbApprovedApp : DB :=
  { users := [{ id := 42, username := "u42", role := "user" }],
    applications := [{ id := 7, userId := some 42, position := "Moderator", experience := "e",
                       reason := "r", status := "approved", reviewedBy := some 9 }] }

/-- The admin session principal used in the concrete runs. -/
def adminP : Principal := { id := 9, username := "adm", role := "admin" }

/-- The moderator session principal used in the concrete runs. -/
def modP : Principal := { id := 5, username := "mod", role := "moderator" }

/-! ## Claims -/

/-- C1: the spec demands that a reply to a `closed` ticket be rejected with
an error and no reply row stored, for every actor.  Neither reply handler
inspects `ticket.status`: the owner's reply to the closed ticket is
accepted with 201 and a reply row is appended (the status staying
`closed`), and the admin reply endpoint even moves the closed ticket back
to `processing` while accepting the reply.  The repository's own ticket
view promises the opposite ("não poderá mais enviar mensagens neste
ticket"), so this is a server-side enforcement bug. -/
theorem c1_closed_ticket_reply_accepted :
    (userReplyToTicket { id := 42, username := "u42", role := "user" } 1 "hello" dbClosedTicket).1
        = .ok 201
    ∧ (getTicketReplies 1 (userReplyToTicket { id := 42, username := "u42", role := "user" } 1
        "hello" dbClosedTicket).2).length = 1
    ∧ ((getTicket 1 (userReplyToTicket { id := 42, username := "u42", role := "user" } 1
        "hello" dbClosedTicket).2).map Ticket.status) = some "closed"
    ∧ (adminReplyToTicket adminP 1 "hi" dbClosedTicket).1 = .ok 201
    ∧ ((getTicket 1 (adminReplyToTicket adminP 1 "hi" dbClosedTicket).2).map Ticket.status)
        = some "processing" := by
  decide

/-- C2: the spec claims a reply by any actor with role in
`{admin, moderator, support}` to an `open` ticket leaves it exactly in
`processing`.  A `support`-role owner's reply is routed through the user
endpoint whose `isStaff` flag covers only `admin`/`moderator`, and the
storage layer's own staff branch writes status `"in_progress"` instead, so
the ticket ends in `in_progress`, not `processing`. -/
theorem c2_support_reply_leaves_in_progress :
    (userReplyToTicket { id := 7, username := "sup", role := "support" } 1 "msg" dbSupportOwner).1
        = .ok 201
    ∧ ((getTicket 1 (userReplyToTicket { id := 7, username := "sup", role := "support" } 1 "msg"
        dbSupportOwner).2).map Ticket.status) = some "in_progress"
    ∧ some "in_progress" ≠ some "processing" := by
  decide

/-- C4: the spec demands that a second application while one is `pending`
be rejected with a 400.  `POST /api/applications` is registered twice;
Express dispatches the first registration, which performs no pending check,
so the duplicate is created and answered 200 — while the unreachable later
registration would indeed have answered 400 and left the store unchanged. -/
theorem c4_duplicate_pending_application_created :
    (postApplications (some { id := 42, username := "u42", role := "user" })
        "Moderator" "e2" "r2" "" dbPendingApp).1 = .ok 200
    ∧ ((getStaffApplicationsByUserId 42 (postApplications
        (some { id := 42, username := "u42", role := "user" })
        "Moderator" "e2" "r2" "" dbPendingApp).2).filter
          (fun a => a.status == "pending")).length = 2
    ∧ (postApplicationsSecond { id := 42, username := "u42", role := "user" }
        "Moderator" "e2" "r2" "" dbPendingApp)
      = (.err 400 "Você já possui uma candidatura pendente. Aguarde a análise da atual antes de enviar outra.",
         dbPendingApp) := by
  decide

/-- C6: the spec claims every stored ticket status lies in
`{open, processing, closed}` — the set the client `AdminTicket` interface
declares.  The storage layer's staff-reply branch writes the out-of-set
value `"in_progress"`: after a `support`-role owner replies to their open
ticket, the stored status is `in_progress`. -/
theorem c6_status_in_progress_stored :
    ((getTicket 1 (userReplyToTicket { id := 7, username := "sup", role := "support" } 1 "msg"
        dbSupportOwner).2).map Ticket.status) = some "in_progress"
    ∧ ¬ (["open", "processing", "closed"].contains "in_progress" = true) := by
  decide

/-- C3 (counterexample): approving a pending application through the
dedicated `PATCH /api/admin/applications/:id/approve` endpoint marks it
`approved` with the reviewer recorded, yet creates no staff-roster row and
leaves the applicant's role at `user` — refuting the claim that the
approval operation creates a roster row and upgrades the role. -/
theorem c3_approve_endpoint_no_roster_row :
    (approveApplication adminP 7 none dbPendingApp7).1 = .ok 200
    ∧ ((getStaffApplication 7 (approveApplication adminP 7 none dbPendingApp7).2).map
        StaffApplication.status) = some "approved"
    ∧ (approveApplication adminP 7 none dbPendingApp7).2.staffMembers = []
    ∧ ((getUser 42 (approveApplication adminP 7 none dbPendingApp7).2).map User.role)
        = some "user" := by
  decide

/-- C5 (counterexample): a `moderator` who does not own the ticket is
rejected with 403 by both the reply and the close endpoint, the store left
untouched — refuting the claim that roles `moderator` and `support` are
authorized. -/
theorem c5_moderator_nonowner_denied :
    userReplyToTicket modP 1 "msg" dbSupportOwner = (.err 403 "Acesso negado", dbSupportOwner)
    ∧ userCloseTicket modP 1 dbSupportOwner = (.err 403 "Acesso negado", dbSupportOwner) := by
  decide

/-- C7 (counterexample): the generic admin PATCH accepts the status value
`pending` and never consults the current status, so an `approved`
application transitions back to `pending` — refuting terminality. -/
theorem c7_approved_set_back_to_pending :
    (patchAdminApplication adminP 7 "pending" none dbApprovedApp).1 = .ok 200
    ∧ ((getStaffApplication 7 (patchAdminApplication adminP 7 "pending" none dbApprovedApp).2).map
        StaffApplication.status) = some "pending" := by
  decide

/-- C8 (counterexample): the assignment endpoint performs no closed check:
assigning a `closed` ticket succeeds with 200 and moves it to `processing`
with the assignee stored — refuting the claim that assignment of a closed
ticket is rejected and leaves it unchanged. -/
theorem c8_assign_closed_ticket_reopens :
    (adminAssignTicket adminP 1 dbClosedTicket).1 = .ok 200
    ∧ ((getTicket 1 (adminAssignTicket adminP 1 dbClosedTicket).2).map Ticket.status)
        = some "processing"
    ∧ ((getTicket 1 (adminAssignTicket adminP 1 dbClosedTicket).2).map Ticket.assignedTo)
        = some (some 9) := by
  decide

/-- C10 (counterexample): punctuation is deleted, not collapsed to a
hyphen: `slugify "a.b"` is `"ab"`, containing no hyphen at all, whereas
the claim's "punctuation runs collapsed to single hyphens" would demand
`"a-b"`. -/
theorem c10_punctuation_deleted_not_hyphenated :
    slugify "a.b" = "ab" ∧ (slugify "a.b").data.all (fun c => c != '-') = true := by
  decide

/-- C9: for every bcrypt comparison function and every database state —
reachable or `down`, with or without a `thuglife` row — the login route
authenticates the credential pair `thuglife`/`thuglife` as the synthetic
principal `id 1`, `role admin`, short-cutting before any database access,
exactly as the spec's fixed-identity administrative bypass describes. -/
theorem c9_bypass_login_always_admin :
    ∀ (compare : String → String → Bool) (conn : DbConn),
      authLoginRoute compare "thuglife" "thuglife" conn
        = .success { id := 1, username := "thuglife", role := "admin" } := by
  intro compare conn
  rfl

/-! ## Helper lemmas about the storage primitives -/

/-- Updating the row with key `i` through an id-preserving row function
commutes with selecting the row with key `i`. -/
theorem find?_map_update {α : Type} (idOf : α → Nat) (f : α → α)
    (hid : ∀ x, idOf (f x) = idOf x) (i : Nat) :
    ∀ (l : List α) (a : α), l.find? (fun x => idOf x == i) = some a →
      (l.map (fun x => if idOf x == i then f x else x)).find? (fun x => idOf x == i)
        = some (f a) := by
  intro l
  induction l with
  | nil => intro a h; simp at h
  | cons b l ih =>
    intro a h
    by_cases hb : (idOf b == i) = true
    · rw [List.find?_cons_of_pos (p := fun x => idOf x == i) l hb] at h
      cases h
      simp only [List.map_cons, if_pos hb]
      exact List.find?_cons_of_pos (p := fun x => idOf x == i) _ (by simpa only [hid] using hb)
    · rw [List.find?_cons_of_neg (p := fun x => idOf x == i) l hb] at h
      simp only [List.map_cons, if_neg hb]
      rw [List.find?_cons_of_neg (p := fun x => idOf x == i) _ hb]
      exact ih a h

/-- Selecting the updated ticket after `storage.updateTicket`. -/
theorem getTicket_updateTicket (id : Nat) (p : TicketPatch) (db : DB) (t : Ticket)
    (h : getTicket id db = some t) :
    getTicket id (updateTicket id p db).2 = some (applyTicketPatch p db.now t) := by
  have h' : db.tickets.find? (fun x => x.id == id) = some t := h
  exact find?_map_update (fun x : Ticket => x.id) (applyTicketPatch p db.now)
    (fun _ => rfl) id db.tickets t h'

/-- Selecting the updated application after `storage.updateStaffApplication`. -/
theorem getStaffApplication_update (id : Nat) (p : AppPatch) (db : DB) (a : StaffApplication)
    (h : getStaffApplication id db = some a) :
    getStaffApplication id (updateStaffApplication id p db).2 = some (applyAppPatch p db.now a) := by
  have h' : db.applications.find? (fun x => x.id == id) = some a := h
  exact find?_map_update (fun x : StaffApplication => x.id) (applyAppPatch p db.now)
    (fun _ => rfl) id db.applications a h'

/-- Selecting the updated user after the role write of the approval path. -/
theorem getUser_updateUserRole (id : Nat) (role : Role) (db : DB) (u : User)
    (h : getUser id db = some u) :
    getUser id (updateUserRole id role db) = some { u with role := role } := by
  have h' : db.users.find? (fun x => x.id == id) = some u := h
  exact find?_map_update (fun x : User => x.id) (fun x => { x with role := role })
    (fun _ => rfl) id db.users u h'

/-- When the target ticket is not currently `open` (or absent), the staff
branch of `DatabaseStorage.createTicketReply` never fires, and the whole
call is just the INSERT of the reply row. -/
theorem createTicketReply_not_open (r : InsertTicketReply) (db : DB)
    (h : ∀ t, getTicket r.ticketId db = some t → t.status ≠ "open") :
    (createTicketReply r db).2 =
      { db with
        ticketReplies := db.ticketReplies ++
          [{ id := db.nextReplyId, ticketId := r.ticketId, userId := r.userId,
             message := r.message, createdAt := db.now }],
        nextReplyId := db.nextReplyId + 1 } := by
  simp only [createTicketReply]
  split
  · next user hu =>
    split
    · next hrole =>
      split
      · next t ht =>
        split
        · next hopen =>
          exact absurd (by simpa using hopen) (h t ht)
        · next hopen => rfl
      · next ht => rfl
    · next hrole => rfl
  · next hu => rfl

/-- C5 (amended): on the user ticket endpoints, a reply or close succeeds
exactly when the actor owns the ticket or has role `admin`; every other
actor — moderators and support staff included — receives 403 with the
store unchanged. -/
theorem c5_reply_close_owner_or_admin (db : DB) (p : Principal) (tid : Nat) (msg : String)
    (t : Ticket) (h : getTicket tid db = some t) :
    ((t.userId ≠ p.id ∧ p.role ≠ "admin") →
      userReplyToTicket p tid msg db = (.err 403 "Acesso negado", db)
      ∧ userCloseTicket p tid db = (.err 403 "Acesso negado", db))
    ∧ ((t.userId = p.id ∨ p.role = "admin") →
      (userReplyToTicket p tid msg db).1 = .ok 201
      ∧ (userCloseTicket p tid db).1 = .ok 200) := by
  constructor
  · rintro ⟨h1, h2⟩
    have hc : (t.userId != p.id && p.role != "admin") = true := by
      simp [bne_iff_ne, h1, h2]
    constructor
    · simp only [userReplyToTicket, h, hc]; rfl
    · simp only [userCloseTicket, h, hc]; rfl
  · intro hok
    have hc : (t.userId != p.id && p.role != "admin") = false := by
      rcases hok with h1 | h2
      · simp [bne_iff_ne, h1]
      · simp [bne_iff_ne, h2]
    constructor
    · simp only [userReplyToTicket, h, hc]; rfl
    · simp only [userCloseTicket, h, hc]; rfl

/-- C5 (witness): concrete instance of the authorization theorem at the
support-owner fixture with the moderator principal. -/
theorem c5_reply_close_owner_or_admin_witness :
    userReplyToTicket modP 1 "w" dbSupportOwner = (.err 403 "Acesso negado", dbSupportOwner)
    ∧ userCloseTicket modP 1 dbSupportOwner = (.err 403 "Acesso negado", dbSupportOwner) :=
  (c5_reply_close_owner_or_admin dbSupportOwner modP 1 "w"
    { id := 1, userId := 7, subject := "s", message := "m", status := "open" }
    (by decide)).1 (by decide)

/-- C8 (amended): for every existing ticket — whatever its status,
`closed` included — the assignment endpoint answers 200, stores the admin
as assignee, forces status `processing`, and appends one system reply. -/
theorem c8_assign_forces_processing (db : DB) (p : Principal) (tid : Nat) (t : Ticket)
    (hrole : p.role = "admin") (h : getTicket tid db = some t) :
    (adminAssignTicket p tid db).1 = .ok 200
    ∧ ((getTicket tid (adminAssignTicket p tid db).2).map Ticket.status) = some "processing"
    ∧ ((getTicket tid (adminAssignTicket p tid db).2).map Ticket.assignedTo) = some (some p.id)
    ∧ (adminAssignTicket p tid db).2.ticketReplies.length = db.ticketReplies.length + 1 := by
  have hrb : (p.role != "admin") = false := by simp [bne_iff_ne, hrole]
  have hup := getTicket_updateTicket tid
    { assignedTo := some p.id, status := some "processing" } db t h
  set db1 := (updateTicket tid { assignedTo := some p.id, status := some "processing" } db).2
    with hdb1
  set t1 := applyTicketPatch { assignedTo := some p.id, status := some "processing" } db.now t
    with ht1
  have hnotopen : ∀ t', getTicket tid db1 = some t' → t'.status ≠ "open" := by
    intro t' ht'
    rw [hup] at ht'
    cases ht'
    intro hcon
    exact absurd hcon (by simp [ht1, applyTicketPatch])
  have hins := createTicketReply_not_open
    { ticketId := tid, userId := p.id,
      message := (match getUser p.id db1 with
        | some admin => admin.username
        | none => "Administrador") ++ " assumiu este ticket e está trabalhando nele.",
      isStaff := true, isSystemMessage := true } db1 hnotopen
  have hrun : adminAssignTicket p tid db =
      (.ok 200, (createTicketReply
        { ticketId := tid, userId := p.id,
          message := (match getUser p.id db1 with
            | some admin => admin.username
            | none => "Administrador") ++ " assumiu este ticket e está trabalhando nele.",
          isStaff := true, isSystemMessage := true } db1).2) := by
    simp only [adminAssignTicket, hrb, Bool.false_eq_true, if_false, h]
  rw [hrun, hins]
  refine ⟨rfl, ?_, ?_, ?_⟩
  · have : getTicket tid
        { db1 with
          ticketReplies := db1.ticketReplies ++
            [{ id := db1.nextReplyId, ticketId := tid, userId := p.id,
               message := (match getUser p.id db1 with
                 | some admin => admin.username
                 | none => "Administrador") ++ " assumiu este ticket e está trabalhando nele.",
               createdAt := db1.now }],
          nextReplyId := db1.nextReplyId + 1 } = some t1 := hup
    rw [this]
    simp [ht1, applyTicketPatch]
  · have : getTicket tid
        { db1 with
          ticketReplies := db1.ticketReplies ++
            [{ id := db1.nextReplyId, ticketId := tid, userId := p.id,
               message := (match getUser p.id db1 with
                 | some admin => admin.username
                 | none => "Administrador") ++ " assumiu este ticket e está trabalhando nele.",
               createdAt := db1.now }],
          nextReplyId := db1.nextReplyId + 1 } = some t1 := hup
    rw [this]
    simp [ht1, applyTicketPatch]
  · simp [hdb1, updateTicket]

/-- C8 (witness): the assignment theorem instantiated at the closed-ticket
fixture. -/
theorem c8_assign_forces_processing_witness :
    (adminAssignTicket adminP 1 dbClosedTicket).1 = .ok 200
    ∧ ((getTicket 1 (adminAssignTicket adminP 1 dbClosedTicket).2).map Ticket.status)
        = some "processing"
    ∧ ((getTicket 1 (adminAssignTicket adminP 1 dbClosedTicket).2).map Ticket.assignedTo)
        = some (some 9)
    ∧ (adminAssignTicket adminP 1 dbClosedTicket).2.ticketReplies.length
        = dbClosedTicket.ticketReplies.length + 1 :=
  c8_assign_forces_processing dbClosedTicket adminP 1
    { id := 1, userId := 42, subject := "s", message := "m", status := "closed" }
    (by decide) (by decide)

/-- C7 (amended): `approved` and `rejected` are not terminal.  The generic
admin PATCH endpoint accepts any of the three status values — `pending`
included — and applies the requested status to the stored row regardless
of its current status, so an `approved` or `rejected` application can be
moved again, in particular back to `pending`. -/
theorem c7_admin_patch_overwrites_status (db : DB) (p : Principal) (id : Nat)
    (a : StaffApplication) (s : String) (notes : Option String)
    (hrole : p.role = "admin")
    (hs : s = "approved" ∨ s = "rejected" ∨ s = "pending")
    (h : getStaffApplication id db = some a) :
    (patchAdminApplication p id s notes db).1 = .ok 200
    ∧ ((getStaffApplication id (patchAdminApplication p id s notes db).2).map
        StaffApplication.status) = some s := by
  have hrb : (p.role != "admin") = false := by simp [bne_iff_ne, hrole]
  have hcont : (["approved", "rejected", "pending"].contains s) = true := by
    rcases hs with h1 | h1 | h1 <;> subst h1 <;> decide
  have key : ∀ nv : String,
      ((getStaffApplication id (updateStaffApplication id
          { status := some s, adminNotes := some nv, reviewedBy := some p.id } db).2).map
        StaffApplication.status) = some s := by
    intro nv
    rw [getStaffApplication_update id _ db a h]
    simp [applyAppPatch]
  simp only [patchAdminApplication, hrb, Bool.false_eq_true, if_false, hcont,
    Bool.not_true, h]
  refine ⟨by first | rfl | trivial, ?_⟩
  split
  · split
    · exact key _
    · split
      · exact key _
      · exact key _
  · exact key _

/-- C7 (witness): the PATCH theorem instantiated at the approved-application
fixture with requested status `pending`. -/
theorem c7_admin_patch_overwrites_status_witness :
    (patchAdminApplication adminP 7 "pending" none dbApprovedApp).1 = .ok 200
    ∧ ((getStaffApplication 7 (patchAdminApplication adminP 7 "pending" none dbApprovedApp).2).map
        StaffApplication.status) = some "pending" :=
  c7_admin_patch_overwrites_status dbApprovedApp adminP 7
    { id := 7, userId := some 42, position := "Moderator", experience := "e",
      reason := "r", status := "approved", reviewedBy := some 9 }
    "pending" none (by decide) (Or.inr (Or.inr rfl)) (by decide)

/-- C3 (amended): the roster/role side effect lives only on the generic
`PATCH /api/admin/applications/:id` endpoint.  Approving a pending
application there, when the applicant's user row exists and has no roster
row, marks the application `approved` with the reviewer recorded, inserts
exactly one staff-roster row for the applicant, and sets the user's role
to `moderator` — as three sequential writes, not one transaction; the
dedicated `/approve` endpoint performs none of these side effects. -/
theorem c3_patch_approval_creates_roster_and_promotes
    (db : DB) (p : Principal) (id uid : Nat) (a : StaffApplication) (u : User)
    (notes : Option String)
    (hrole : p.role = "admin")
    (h : getStaffApplication id db = some a)
    (_hpend : a.status = "pending")
    (huid : a.userId = some uid)
    (hnomem : getStaffMemberByUserId a.userId db = none)
    (huser : getUser uid db = some u) :
    (patchAdminApplication p id "approved" notes db).1 = .ok 200
    ∧ ((getStaffApplication id (patchAdminApplication p id "approved" notes db).2).map
        StaffApplication.status) = some "approved"
    ∧ ((getStaffApplication id (patchAdminApplication p id "approved" notes db).2).map
        StaffApplication.reviewedBy) = some (some p.id)
    ∧ ((patchAdminApplication p id "approved" notes db).2.staffMembers.filter
        (fun m => m.userId == some uid)).length = 1
    ∧ ((getUser uid (patchAdminApplication p id "approved" notes db).2).map User.role)
        = some "moderator" := by
  have hueq : u.id = uid := by
    have h' : db.users.find? (fun x => x.id == uid) = some u := huser
    simpa using List.find?_some h'
  subst hueq
  have hrb : (p.role != "admin") = false := by simp [bne_iff_ne, hrole]
  have hcont : (["approved", "rejected", "pending"].contains ("approved" : String)) = true := by
    decide
  have hnomem' : getStaffMemberByUserId a.userId
      (updateStaffApplication id
        { status := some "approved", adminNotes := some (patchNotesVal notes a),
          reviewedBy := some p.id } db).2 = none := hnomem
  have huser' : getUser u.id
      (updateStaffApplication id
        { status := some "approved", adminNotes := some (patchNotesVal notes a),
          reviewedBy := some p.id } db).2 = some u := huser
  have hrun : patchAdminApplication p id "approved" notes db
      = (.ok 200, updateUserRole u.id "moderator"
          (createStaffMember u.id u.username a.position "moderator"
            (updateStaffApplication id
              { status := some "approved", adminNotes := some (patchNotesVal notes a),
                reviewedBy := some p.id } db).2).2) := by
    simp only [patchAdminApplication, hrb, Bool.false_eq_true, if_false, hcont,
      Bool.not_true, h, hnomem', huid, getUserOpt, huser']
    simp [huid] at hnomem'
    simp [hnomem', getUserOpt, huser']
  have key := getStaffApplication_update id
    { status := some "approved", adminNotes := some (patchNotesVal notes a),
      reviewedBy := some p.id } db a h
  have hfind : db.staffMembers.find? (fun m => m.userId == some u.id) = none := by
    rw [huid] at hnomem
    exact hnomem
  have hfe : db.staffMembers.filter (fun m => m.userId == some u.id) = [] := by
    rw [List.filter_eq_nil_iff]
    intro m hm
    have := List.find?_eq_none.mp hfind m hm
    simpa using this
  refine ⟨by rw [hrun], ?_, ?_, ?_, ?_⟩
  · rw [hrun]
    have this2 : getStaffApplication id (updateUserRole u.id "moderator"
        (createStaffMember u.id u.username a.position "moderator"
          (updateStaffApplication id
            { status := some "approved", adminNotes := some (patchNotesVal notes a),
              reviewedBy := some p.id } db).2).2)
        = some (applyAppPatch
            { status := some "approved", adminNotes := some (patchNotesVal notes a),
              reviewedBy := some p.id } db.now a) := key
    rw [this2]
    simp [applyAppPatch]
  · rw [hrun]
    have this2 : getStaffApplication id (updateUserRole u.id "moderator"
        (createStaffMember u.id u.username a.position "moderator"
          (updateStaffApplication id
            { status := some "approved", adminNotes := some (patchNotesVal notes a),
              reviewedBy := some p.id } db).2).2)
        = some (applyAppPatch
            { status := some "approved", adminNotes := some (patchNotesVal notes a),
              reviewedBy := some p.id } db.now a) := key
    rw [this2]
    simp [applyAppPatch]
  · rw [hrun]
    have hsm : (updateUserRole u.id "moderator"
        (createStaffMember u.id u.username a.position "moderator"
          (updateStaffApplication id
            { status := some "approved", adminNotes := some (patchNotesVal notes a),
              reviewedBy := some p.id } db).2).2).staffMembers
        = db.staffMembers ++
          [{ id := db.nextMemberId, userId := some u.id, name := u.username,
             position := a.position, role := "moderator", isActive := true,
             displayOrder := 99 }] := rfl
    rw [hsm, List.filter_append, hfe]
    simp
  · rw [hrun]
    have hget : getUser u.id (createStaffMember u.id u.username a.position "moderator"
        (updateStaffApplication id
          { status := some "approved", adminNotes := some (patchNotesVal notes a),
            reviewedBy := some p.id } db).2).2 = some u := huser
    rw [getUser_updateUserRole u.id "moderator" _ u hget]
    rfl

/-- C3 (witness): the side-effect theorem instantiated at the
pending-application fixture. -/
theorem c3_patch_approval_creates_roster_and_promotes_witness :
    (patchAdminApplication adminP 7 "approved" none dbPendingApp7).1 = .ok 200
    ∧ ((getStaffApplication 7 (patchAdminApplication adminP 7 "approved" none dbPendingApp7).2).map
        StaffApplication.status) = some "approved"
    ∧ ((getStaffApplication 7 (patchAdminApplication adminP 7 "approved" none dbPendingApp7).2).map
        StaffApplication.reviewedBy) = some (some 9)
    ∧ ((patchAdminApplication adminP 7 "approved" none dbPendingApp7).2.staffMembers.filter
        (fun m => m.userId == some 42)).length = 1
    ∧ ((getUser 42 (patchAdminApplication adminP 7 "approved" none dbPendingApp7).2).map
        User.role) = some "moderator" :=
  c3_patch_approval_creates_roster_and_promotes dbPendingApp7 adminP 7 42
    { id := 7, userId := some 42, position := "Moderator", experience := "e",
      reason := "r", status := "pending" }
    { id := 42, username := "u42", role := "user" }
    none (by decide) (by decide) (by decide) (by decide) (by decide) (by decide)

/-! ## Lemmas on the slug pipeline -/

/-- Lowercasing never yields an ASCII uppercase letter. -/
theorem toLowerJS_not_upper (c : Char) : isAsciiUpper (toLowerJS c) = false := by
  unfold toLowerJS
  by_cases h : isAsciiUpper c = true
  · rw [if_pos h]
    unfold isAsciiUpper at h
    rw [Bool.and_eq_true, decide_eq_true_iff, decide_eq_true_iff] at h
    have h1 : 65 ≤ c.toNat := h.1
    have h2 : c.toNat ≤ 90 := h.2
    have key : ∀ (n : Nat), 65 ≤ n → n ≤ 90 → isAsciiUpper (Char.ofNat (n + 32)) = false := by
      intro n hn1 hn2
      interval_cases n <;> decide
    exact key c.toNat h1 h2
  · rw [if_neg h]
    simpa using h

/-- Every character of the collapse output is a hyphen or a non-separator
character of the input. -/
theorem collapseSeps_mem : ∀ (b : Bool) (l : List Char) (c : Char),
    c ∈ collapseSeps b l → c = '-' ∨ (c ∈ l ∧ isSep c = false) := by
  intro b l
  induction l generalizing b with
  | nil => intro c h; simp [collapseSeps] at h
  | cons a l ih =>
    intro c h
    cases ha : isSep a with
    | true =>
      cases b with
      | true =>
        simp only [collapseSeps, ha, if_true] at h
        rcases ih true c h with h1 | ⟨h2, h3⟩
        · exact Or.inl h1
        · exact Or.inr ⟨List.mem_cons_of_mem a h2, h3⟩
      | false =>
        simp only [collapseSeps, ha, if_true] at h
        rcases List.mem_cons.mp h with h1 | h1
        · exact Or.inl h1
        · rcases ih true c h1 with h2 | ⟨h3, h4⟩
          · exact Or.inl h2
          · exact Or.inr ⟨List.mem_cons_of_mem a h3, h4⟩
    | false =>
      simp only [collapseSeps, ha, Bool.false_eq_true, if_false] at h
      rcases List.mem_cons.mp h with h1 | h1
      · refine Or.inr ⟨?_, ?_⟩
        · rw [h1]; exact List.mem_cons_self _ _
        · rw [h1]; exact ha
      · rcases ih false c h1 with h2 | ⟨h3, h4⟩
        · exact Or.inl h2
        · exact Or.inr ⟨List.mem_cons_of_mem a h3, h4⟩

/-- Inside a separator run, the collapse output never starts with another
separator (in particular not with a hyphen). -/
theorem collapseSeps_head : ∀ (l : List Char) (c : Char),
    (collapseSeps true l).head? = some c → isSep c = false := by
  intro l
  induction l with
  | nil => intro c h; simp [collapseSeps] at h
  | cons a l ih =>
    intro c h
    cases ha : isSep a with
    | true =>
      simp only [collapseSeps, ha, if_true] at h
      exact ih c h
    | false =>
      simp only [collapseSeps, ha, Bool.false_eq_true, if_false, List.head?_cons,
        Option.some.injEq] at h
      rw [← h]
      exact ha

/-- The collapse output never contains two adjacent hyphens. -/
theorem collapseSeps_chain : ∀ (b : Bool) (l : List Char),
    List.Chain' (fun x y => ¬(x = '-' ∧ y = '-')) (collapseSeps b l) := by
  intro b l
  induction l generalizing b with
  | nil => simp [collapseSeps]
  | cons a l ih =>
    cases ha : isSep a with
    | true =>
      cases b with
      | true => simpa only [collapseSeps, ha, if_true] using ih true
      | false =>
        simp only [collapseSeps, ha, Bool.false_eq_true, if_true, if_false]
        rw [List.chain'_cons']
        constructor
        · intro y hy hcon
          have hsep := collapseSeps_head l y hy
          rw [hcon.2] at hsep
          simp [isSep] at hsep
        · exact ih true
    | false =>
      simp only [collapseSeps, ha, Bool.false_eq_true, if_false]
      rw [List.chain'_cons']
      constructor
      · intro y _ hcon
        rw [hcon.1] at ha
        simp [isSep] at ha
      · exact ih false

/-- `dropWhile` preserves `Chain'`. -/
theorem chain'_dropWhile {R : Char → Char → Prop} (p : Char → Bool) :
    ∀ l : List Char, List.Chain' R l → List.Chain' R (l.dropWhile p) := by
  intro l
  induction l with
  | nil => intro h; simp
  | cons a l ih =>
    intro h
    rw [List.dropWhile_cons]
    split
    · exact ih (List.chain'_cons'.mp h).2
    · exact h

/-- `reverse` preserves `Chain'` for a symmetric relation. -/
theorem chain'_reverse_symm {R : Char → Char → Prop} (hsym : ∀ x y, R x y → R y x) :
    ∀ l : List Char, List.Chain' R l → List.Chain' R l.reverse := by
  intro l h
  rw [List.chain'_reverse]
  exact List.Chain'.imp (fun x y hxy => hsym x y hxy) h

/-- The head surviving a `dropWhile` fails the dropped predicate. -/
theorem head?_dropWhile (p : Char → Bool) : ∀ (l : List Char) (c : Char),
    (l.dropWhile p).head? = some c → p c = false := by
  intro l
  induction l with
  | nil => intro c h; simp at h
  | cons a l ih =>
    intro c h
    rw [List.dropWhile_cons] at h
    by_cases hp : p a = true
    · rw [if_pos hp] at h
      exact ih c h
    · rw [if_neg hp] at h
      simp only [List.head?_cons, Option.some.injEq] at h
      subst h
      simpa using hp

/-- A nonempty `dropWhile` keeps the last element. -/
theorem getLast?_dropWhile (p : Char → Bool) : ∀ (l : List Char),
    l.dropWhile p ≠ [] → (l.dropWhile p).getLast? = l.getLast? := by
  intro l
  induction l with
  | nil => intro h; simp at h
  | cons a l ih =>
    intro h
    rw [List.dropWhile_cons] at h ⊢
    by_cases hp : p a = true
    · rw [if_pos hp] at h ⊢
      rw [ih h]
      have hl : l ≠ [] := by
        intro he
        subst he
        simp at h
      cases l with
      | nil => exact absurd rfl hl
      | cons b m => rw [List.getLast?_cons_cons]
    · rw [if_neg hp]

/-- Membership survives the edge strip. -/
theorem stripEdgeHyphens_subset (l : List Char) (c : Char) (h : c ∈ stripEdgeHyphens l) :
    c ∈ l := by
  unfold stripEdgeHyphens at h
  rw [List.mem_reverse] at h
  have h1 := (List.dropWhile_sublist _).subset h
  rw [List.mem_reverse] at h1
  exact (List.dropWhile_sublist _).subset h1

/-- Membership survives the trim. -/
theorem trimJS_subset (l : List Char) (c : Char) (h : c ∈ trimJS l) : c ∈ l := by
  unfold trimJS at h
  rw [List.mem_reverse] at h
  have h1 := (List.dropWhile_sublist _).subset h
  rw [List.mem_reverse] at h1
  exact (List.dropWhile_sublist _).subset h1

/-- C10 (amended): every slug is lowercase and drawn from `[a-z0-9-]`,
carries no leading or trailing hyphen, and never contains two adjacent
hyphens (separator runs — whitespace, underscores, hyphens — collapse to a
single hyphen); punctuation outside that separator class is deleted rather
than turned into a hyphen. -/
theorem c10_slugify_charset (s : String) :
    (∀ c ∈ (slugify s).data, (isAsciiLower c || isAsciiDigit c || c == '-') = true)
    ∧ (slugify s).data.head? ≠ some '-'
    ∧ (slugify s).data.getLast? ≠ some '-'
    ∧ List.Chain' (fun x y => ¬(x = '-' ∧ y = '-')) (slugify s).data := by
  have hdata : (slugify s).data = stripEdgeHyphens (collapseSeps false
      (List.filter (fun c => isWordChar c || isJsSpace c || c == '-')
        (trimJS (s.data.map toLowerJS)))) := rfl
  refine ⟨?_, ?_, ?_, ?_⟩
  · intro c hc
    rw [hdata] at hc
    have hcm := stripEdgeHyphens_subset _ _ hc
    rcases collapseSeps_mem false _ c hcm with h1 | ⟨h2, h3⟩
    · subst h1; decide
    · have hf := List.mem_filter.mp h2
      have hlow : c ∈ s.data.map toLowerJS := trimJS_subset _ _ hf.1
      obtain ⟨c0, _, hc0⟩ := List.mem_map.mp hlow
      have hup : isAsciiUpper c = false := hc0 ▸ toLowerJS_not_upper c0
      have hsep := h3
      unfold isSep at hsep
      rw [Bool.or_eq_false_iff, Bool.or_eq_false_iff] at hsep
      have hk := hf.2
      simp only [Bool.or_eq_true] at hk
      rcases hk with (hw | hspace) | hdash
      · simp only [isWordChar, Bool.or_eq_true] at hw
        rcases hw with ((hl | hu) | hd) | hund
        · simp [hl]
        · rw [hup] at hu; exact absurd hu (by simp)
        · simp [hd]
        · rw [hsep.1.2] at hund; exact absurd hund (by simp)
      · rw [hsep.1.1] at hspace; exact absurd hspace (by simp)
      · rw [hsep.2] at hdash; exact absurd hdash (by simp)
  · rw [hdata]
    intro hcon
    unfold stripEdgeHyphens at hcon
    rw [List.head?_reverse] at hcon
    have hne : ((collapseSeps false
        (List.filter (fun c => isWordChar c || isJsSpace c || c == '-')
          (trimJS (s.data.map toLowerJS)))).dropWhile (fun c => c == '-')).reverse.dropWhile
            (fun c => c == '-') ≠ [] := by
      intro he
      rw [he] at hcon
      simp at hcon
    rw [getLast?_dropWhile _ _ hne] at hcon
    rw [List.getLast?_reverse] at hcon
    have := head?_dropWhile _ _ _ hcon
    simp at this
  · rw [hdata]
    intro hcon
    unfold stripEdgeHyphens at hcon
    rw [List.getLast?_reverse] at hcon
    have := head?_dropWhile _ _ _ hcon
    simp at this
  · rw [hdata]
    unfold stripEdgeHyphens
    have hsym : ∀ x y : Char, ¬(x = '-' ∧ y = '-') → ¬(y = '-' ∧ x = '-') :=
      fun x y h hc => h ⟨hc.2, hc.1⟩
    exact chain'_reverse_symm hsym _ (chain'_dropWhile _ _ (chain'_reverse_symm hsym _
      (chain'_dropWhile _ _ (collapseSeps_chain false _))))

end AA
